import Mathlib

/-!
Shallow embedding of the CSV-processing repository (AlexNomand/test-tasks).

The repository contains two variants of the same design:
* `src/Test-task/main.py` — free functions `parse_condition`, `parse_order`,
  `filter_rows`, `aggregate`, `sort_data` over rows of raw text cells
  (`Dict[str, str]`), embedded below in namespace `Main`;
* the `CSVProcessor` class appended to `src/Test-task/test_csv.py`, whose rows
  hold cells already coerced to `float` where possible, embedded below in
  namespace `CSVProcessor`.

Python machine floats are modelled by `ℚ`; Python exceptions by an explicit
`Except PyError`.  Python's stable `sorted` (with a key function and the
`reverse` flag) is modelled by `List.insertionSort`, which is a stable sort,
so it produces the same output as CPython's stable sort whenever the induced
comparator is a total preorder — which the embedding guarantees at every
place a sort is actually run.
-/

namespace CSVTask

/-- Python exceptions relevant to the two variants. -/
inductive PyError where
  | valueError (msg : String)
  | typeError (msg : String)
  | keyError (msg : String)
deriving DecidableEq, Repr

/-- A cell value after opportunistic numeric coercion: Python `float` or `str`. -/
inductive Value where
  | num (q : ℚ)
  | str (s : String)
deriving DecidableEq, Repr

/-- `isinstance(v, (int, float))` on a coerced cell. -/
def Value.isNum : Value → Bool
  | .num _ => true
  | .str _ => false

/-- Python `==` between two possibly-mixed-type cell values: a `float` never
equals a `str`, and no exception is raised. -/
def pyEqB : Value → Value → Bool
  | .num a, .num b => decide (a = b)
  | .str a, .str b => a == b
  | _, _ => false

/-- Results of the embedded Python functions are compared in concrete runs,
so equality of `Except` values must be decidable. -/
instance {ε α : Type} [DecidableEq ε] [DecidableEq α] :
    DecidableEq (Except ε α) := fun x y =>
  match x, y with
  | .error a, .error b =>
    if h : a = b then .isTrue (by rw [h])
    else .isFalse (fun hc => h (Except.error.inj hc))
  | .ok a, .ok b =>
    if h : a = b then .isTrue (by rw [h])
    else .isFalse (fun hc => h (Except.ok.inj hc))
  | .error _, .ok _ => .isFalse (fun hc => Except.noConfusion hc)
  | .ok _, .error _ => .isFalse (fun hc => Except.noConfusion hc)

/-- Python `s.strip()`: remove leading and trailing whitespace.  Defined over
the character list so that concrete instances reduce inside the kernel. -/
def pyStrip (s : String) : String :=
  String.mk (((s.toList.dropWhile Char.isWhitespace).reverse.dropWhile
    Char.isWhitespace).reverse)

/-- Python `s.lower()` on the ASCII names used by the tool. -/
def pyLower (s : String) : String :=
  String.mk (s.toList.map Char.toLower)

/-- Python `op in s` for a single character. -/
def containsChar (c : Char) (s : String) : Bool :=
  s.toList.contains c

/-- Python `s.split(c)` (no maxsplit): split at every occurrence of `c`,
keeping empty parts, e.g. `"a=b=c" ↦ ["a", "b", "c"]` and `"" ↦ [""]`. -/
def splitOnCharAux (c : Char) : List Char → List Char → List String
  | [], acc => [String.mk acc.reverse]
  | x :: xs, acc =>
    if x = c then String.mk acc.reverse :: splitOnCharAux c xs []
    else splitOnCharAux c xs (x :: acc)

/-- Python `s.split(c)` over a string. -/
def splitOnChar (c : Char) (s : String) : List String :=
  splitOnCharAux c s.toList []

/-- Numeric value of a digit string, most significant digit first. -/
def natOfDigits (l : List Char) : ℕ :=
  l.foldl (fun n c => 10 * n + (c.toNat - 48)) 0

/-- Models Python `float(s)` on the decimal forms this repository exercises:
optional surrounding whitespace, an optional sign, then integer digits with an
optional fractional part (at least one digit overall, and forms like `"5."`
and `".5"` are accepted, as in Python).  Exponent, `inf` and `nan` spellings
are outside the forms occurring here.  Returns `none` exactly when Python
`float(s)` raises `ValueError` on such inputs. -/
def pyFloat? (s : String) : Option ℚ :=
  let t := (pyStrip s).toList
  let p : Bool × List Char :=
    match t with
    | '-' :: rest => (true, rest)
    | '+' :: rest => (false, rest)
    | _ => (false, t)
  let sgn : ℕ → ℤ := fun n => if p.1 then -(n : ℤ) else (n : ℤ)
  let intPart := p.2.takeWhile Char.isDigit
  let rest := p.2.dropWhile Char.isDigit
  match rest with
  | [] =>
    if intPart.isEmpty then none
    else some (mkRat (sgn (natOfDigits intPart)) 1)
  | '.' :: frac =>
    if frac.all Char.isDigit && (!intPart.isEmpty || !frac.isEmpty) then
      some (mkRat
        (sgn (natOfDigits intPart * 10 ^ frac.length + natOfDigits frac))
        (10 ^ frac.length))
    else none
  | _ => none

/-- Python `s.split(c, 1)`: the text before the first occurrence of `c` and
the text after it (the whole string and `""` when `c` does not occur). -/
def splitOnceAt (c : Char) (s : String) : String × String :=
  let l := s.toList
  (String.mk (l.takeWhile (fun x => x ≠ c)),
   String.mk ((l.dropWhile (fun x => x ≠ c)).drop 1))

/-- The comparator CPython's stable sort effectively orders by, on
(element, precomputed key) pairs: ascending keeps `p` before `q` unless
`q`'s key is strictly below `p`'s, and `reverse=True` keeps `p` before `q`
unless `p`'s key is strictly below `q`'s (stable descending order). -/
def pyLe {α κ : Type} (keyLt : κ → κ → Bool) (reverse : Bool)
    (p q : α × κ) : Prop :=
  (if reverse then ! keyLt p.2 q.2 else ! keyLt q.2 p.2) = true

instance {α κ : Type} (keyLt : κ → κ → Bool) (reverse : Bool) :
    DecidableRel (pyLe (α := α) keyLt reverse) := fun p q => by
  unfold pyLe
  infer_instance

/-- CPython `sorted(pairs, key=snd, reverse=reverse)` on a list of
(element, precomputed key) pairs, with `keyLt` the `<` of the key type.
CPython's sort is stable, and `reverse=True` is stable descending order, so
both directions are stable sorts by the `pyLe` comparator; `insertionSort`
is also stable, hence produces the identical output whenever the comparator
is a total preorder. -/
def pySorted {α κ : Type} (keyLt : κ → κ → Bool) (reverse : Bool)
    (pairs : List (α × κ)) : List α :=
  (List.insertionSort (pyLe keyLt reverse) pairs).map Prod.fst

/-- Strict `<` on `ℚ` as a Bool, Python `float` comparison. -/
def ratLtB (a b : ℚ) : Bool := decide (a < b)

/-- Strict `<` on strings as a Bool, Python `str` comparison (both are
lexicographic by code point). -/
def strLtB (a b : String) : Bool := decide (a < b)

namespace Main

/-- A row of `main.py`: `csv.DictReader` yields `Dict[str, str]`. -/
abbrev PRow := List (String × String)

/-- `main.py` `parse_condition`: scan for `'>'`, `'<'`, `'='` in the
insertion order of the `OPERATORS` dict and split at the first occurrence of
the first operator found (`cond.split(op, 1)`); no check that either part is
non-empty.  Raises `ValueError` only when none of the three characters
occurs. -/
def parse_condition (cond : String) : Except PyError (String × Char × String) :=
  if containsChar '>' cond then
    let p := splitOnceAt '>' cond
    .ok (pyStrip p.1, '>', pyStrip p.2)
  else if containsChar '<' cond then
    let p := splitOnceAt '<' cond
    .ok (pyStrip p.1, '<', pyStrip p.2)
  else if containsChar '=' cond then
    let p := splitOnceAt '=' cond
    .ok (pyStrip p.1, '=', pyStrip p.2)
  else .error (.valueError "invalid filter condition")

/-- `main.py` `parse_order`: requires a `'='`; the returned Bool is
`direction.strip().lower() == 'asc'`, so every other token silently means
descending. -/
def parse_order (order_str : String) : Except PyError (String × Bool) :=
  if !containsChar '=' order_str then
    .error (.valueError "order format is column=asc or column=desc")
  else
    let p := splitOnceAt '=' order_str
    .ok (pyStrip p.1, pyLower (pyStrip p.2) == "asc")

/-- `OPERATORS[op]` applied to two floats. -/
def applyOpQ (op : Char) (x y : ℚ) : Bool :=
  if op = '>' then decide (x > y)
  else if op = '<' then decide (x < y)
  else decide (x = y)

/-- `OPERATORS[op]` applied to two strings (Python compares them
lexicographically; no exception). -/
def applyOpStr (op : Char) (x y : String) : Bool :=
  if op = '>' then decide (x > y)
  else if op = '<' then decide (x < y)
  else x == y

/-- The list comprehension of the `try` branch of `filter_rows` when the
literal parsed as a float: evaluates `float(row[col])` row by row.
`.error` is an uncaught `KeyError` (missing column), `.ok none` means a
`ValueError` was raised (non-numeric cell) and control moves to the
`except` branch, `.ok (some rows)` is the comprehension's value. -/
def tryNumericRows (data : List PRow) (col : String) (op : Char) (q : ℚ) :
    Except PyError (Option (List PRow)) :=
  match data with
  | [] => .ok (some [])
  | row :: rest =>
    match List.lookup col row with
    | none => .error (.keyError col)
    | some s =>
      match pyFloat? s with
      | none => .ok none
      | some x =>
        match tryNumericRows rest col op q with
        | .error e => .error e
        | .ok none => .ok none
        | .ok (some l) => .ok (some (if applyOpQ op x q then row :: l else l))

/-- The `except` branch of `filter_rows` when the literal was rebound to a
float: `op(row[col], val)` compares a `str` with a `float`, which is `False`
for `==` and a `TypeError` for `>` / `<`. -/
def exceptNumericRows (data : List PRow) (col : String) (op : Char) :
    Except PyError (List PRow) :=
  match data with
  | [] => .ok []
  | row :: rest =>
    match List.lookup col row with
    | none => .error (.keyError col)
    | some _ =>
      if op = '=' then exceptNumericRows rest col op
      else .error (.typeError "str and float are not orderable")

/-- The `except` branch of `filter_rows` when `float(val)` itself raised:
both sides are strings, so `op` is Python string comparison. -/
def stringRows (data : List PRow) (col : String) (op : Char) (v : String) :
    Except PyError (List PRow) :=
  match data with
  | [] => .ok []
  | row :: rest =>
    match List.lookup col row with
    | none => .error (.keyError col)
    | some s =>
      match stringRows rest col op v with
      | .error e => .error e
      | .ok l => .ok (if applyOpStr op s v then row :: l else l)

/-- `main.py` `filter_rows`.  `condition` is the optional `--where` string;
`None` and `""` are falsy and return the data unchanged. -/
def filter_rows (data : List PRow) (condition : Option String) :
    Except PyError (List PRow) :=
  match condition with
  | none => .ok data
  | some c =>
    if c = "" then .ok data
    else
      match parse_condition c with
      | .error e => .error e
      | .ok (col, op, valS) =>
        match pyFloat? valS with
        | some q =>
          match tryNumericRows data col op q with
          | .error e => .error e
          | .ok (some rows) => .ok rows
          | .ok none => exceptNumericRows data col op
        | none => stringRows data col op valS

/-- The comprehension `[float(row[col]) for row in data]` inside
`aggregate`'s `try`, with the `except ValueError` clause already applied:
a non-numeric cell becomes the re-raised `ValueError`, a missing column the
uncaught `KeyError`. -/
def collectFloats (data : List PRow) (col : String) : Except PyError (List ℚ) :=
  match data with
  | [] => .ok []
  | row :: rest =>
    match List.lookup col row with
    | none => .error (.keyError col)
    | some s =>
      match pyFloat? s with
      | none => .error (.valueError "column must be numeric for aggregation")
      | some x =>
        match collectFloats rest col with
        | .error e => .error e
        | .ok xs => .ok (x :: xs)

/-- The `AGGREGATIONS` dict of `main.py`: `avg` is guarded against the empty
list (`if values else None`), while `min` and `max` are Python's builtins and
raise `ValueError` on an empty sequence. -/
def AGGREGATIONS (func : String) (values : List ℚ) : Except PyError (Option ℚ) :=
  if func = "avg" then
    .ok (match values with
      | [] => none
      | x :: xs => some ((x :: xs).sum / ((x :: xs).length : ℚ)))
  else if func = "min" then
    match values with
    | [] => .error (.valueError "min arg is an empty sequence")
    | x :: xs => .ok (some (xs.foldl min x))
  else if func = "max" then
    match values with
    | [] => .error (.valueError "max arg is an empty sequence")
    | x :: xs => .ok (some (xs.foldl max x))
  else .error (.valueError "unsupported function")

/-- `main.py` `aggregate`: requires a `'='`, validates the function name
against `AGGREGATIONS`, converts every cell of the column with `float` (the
`try` re-raises a `ValueError` on the first non-numeric cell), then applies
the chosen aggregation. -/
def aggregate (data : List PRow) (instruction : String) :
    Except PyError (String × Option ℚ) :=
  if !containsChar '=' instruction then
    .error (.valueError "aggregation format is column=agg_func")
  else
    let p := splitOnceAt '=' instruction
    let func := pyLower (pyStrip p.2)
    if !(["avg", "min", "max"].contains func) then
      .error (.valueError "unsupported function")
    else
      match collectFloats data (pyStrip p.1) with
      | .error e => .error e
      | .ok values =>
        match AGGREGATIONS func values with
        | .error e => .error e
        | .ok r => .ok (func, r)

/-- Key computation of `sorted(data, key=lambda x: float(x[col]))`:
CPython computes every key before comparing.  `.error` is an uncaught
`KeyError`, `.ok none` a `ValueError` (fall through to the `except` branch),
`.ok (some ks)` the float keys in row order. -/
def numKeys (data : List PRow) (col : String) : Except PyError (Option (List ℚ)) :=
  match data with
  | [] => .ok (some [])
  | row :: rest =>
    match List.lookup col row with
    | none => .error (.keyError col)
    | some s =>
      match pyFloat? s with
      | none => .ok none
      | some x =>
        match numKeys rest col with
        | .error e => .error e
        | .ok none => .ok none
        | .ok (some ks) => .ok (some (x :: ks))

/-- Key computation of the `except` branch `sorted(data, key=lambda x: x[col])`. -/
def strKeys (data : List PRow) (col : String) : Except PyError (List String) :=
  match data with
  | [] => .ok []
  | row :: rest =>
    match List.lookup col row with
    | none => .error (.keyError col)
    | some s =>
      match strKeys rest col with
      | .error e => .error e
      | .ok ks => .ok (s :: ks)

/-- `main.py` `sort_data`: falsy order returns the data unchanged; otherwise
parse the order, try numeric keys, and on a `ValueError` fall back to string
keys; `reverse=not asc`. -/
def sort_data (data : List PRow) (order : Option String) :
    Except PyError (List PRow) :=
  match order with
  | none => .ok data
  | some s =>
    if s = "" then .ok data
    else
      match parse_order s with
      | .error e => .error e
      | .ok (col, asc) =>
        match numKeys data col with
        | .error e => .error e
        | .ok (some ks) => .ok (pySorted ratLtB (!asc) (data.zip ks))
        | .ok none =>
          match strKeys data col with
          | .error e => .error e
          | .ok ks => .ok (pySorted strLtB (!asc) (data.zip ks))

end Main

namespace CSVProcessor

/-- A row of the `CSVProcessor` variant: `_read_csv` stores cells already
passed through `_convert_numeric_values`, so each cell is a `float` or `str`. -/
abbrev VRow := List (String × Value)

/-- The per-cell coercion of `_convert_numeric_values`: `float(value)` on
success, the original string on `ValueError`. -/
def convertValue (s : String) : Value :=
  match pyFloat? s with
  | some q => .num q
  | none => .str s

/-- `CSVProcessor._convert_numeric_values` over a whole row. -/
def convert_numeric_values (row : List (String × String)) : VRow :=
  row.map (fun p => (p.1, convertValue p.2))

/-- The `for op in operators` loop body of `CSVProcessor._parse_condition`:
split on every occurrence of `op` (`condition.split(op)`, no maxsplit); only
a split into exactly two parts returns, otherwise the next operator is
tried. -/
def parseCondLoop (condition : String) : List Char →
    Except PyError (String × Char × Value)
  | [] => .error (.valueError "invalid condition format")
  | op :: rest =>
    if containsChar op condition then
      match splitOnChar op condition with
      | [c, v] => .ok (pyStrip c, op, convertValue (pyStrip v))
      | _ => parseCondLoop condition rest
    else parseCondLoop condition rest

/-- `CSVProcessor._parse_condition` (the leading underscore of the Python
name is dropped): try `'>'`, `'<'`, `'='` in order. -/
def parse_condition (condition : String) : Except PyError (String × Char × Value) :=
  parseCondLoop condition ['>', '<', '=']

/-- The row loop of `CSVProcessor.filter_data`: a missing column is skipped;
`=` uses Python `==` (never raises); `>` / `<` first require
`isinstance(row_value, (int, float))` (a text cell is silently skipped) and
then compare `row_value` with the literal, raising `TypeError` when the
literal is a `str`. -/
def filterLoop (column : String) (op : Char) (value : Value) :
    List VRow → Except PyError (List VRow)
  | [] => .ok []
  | row :: rest =>
    match List.lookup column row with
    | none => filterLoop column op value rest
    | some rv =>
      if op = '=' then
        match filterLoop column op value rest with
        | .error e => .error e
        | .ok l => .ok (if pyEqB rv value then row :: l else l)
      else
        match rv with
        | .str _ => filterLoop column op value rest
        | .num x =>
          match value with
          | .num q =>
            match filterLoop column op value rest with
            | .error e => .error e
            | .ok l =>
              .ok (if (if op = '>' then decide (x > q) else decide (x < q))
                then row :: l else l)
          | .str _ => .error (.typeError "float and str are not orderable")

/-- `CSVProcessor.filter_data` on the loaded data. -/
def filter_data (selfData : List VRow) (condition : String) :
    Except PyError (List VRow) :=
  match parse_condition condition with
  | .error e => .error e
  | .ok (column, op, value) => filterLoop column op value selfData

/-- The comprehension of `CSVProcessor.aggregate`: the cells of the column
that are present and numeric, in row order
(`[row[column] for row in rows if isinstance(row.get(column), (int, float))]`). -/
def collectNumeric (rows : List VRow) (column : String) : List ℚ :=
  rows.filterMap (fun row =>
    match List.lookup column row with
    | some (Value.num q) => some q
    | _ => none)

/-- `CSVProcessor.aggregate` on the effective row list (the Python method's
`data if data else self.data` selection resolved to `rows`).
`aggregation.split('=')` must unpack into exactly two names, else the tuple
unpacking raises `ValueError`; an empty collected list returns
`{operation: 0.0}` before the operation name is ever validated. -/
def aggregate (rows : List VRow) (aggregation : String) :
    Except PyError (String × ℚ) :=
  match splitOnChar '=' aggregation with
  | [c, o] =>
    let column := pyStrip c
    let oper := pyLower (pyStrip o)
    match collectNumeric rows column with
    | [] => .ok (oper, 0)
    | x :: xs =>
      if oper = "avg" then .ok (oper, (x :: xs).sum / ((x :: xs).length : ℚ))
      else if oper = "min" then .ok (oper, xs.foldl min x)
      else if oper = "max" then .ok (oper, xs.foldl max x)
      else .error (.valueError "unknown aggregation operation")
  | _ => .error (.valueError "unpacking aggregation spec failed")

/-- The `is_numeric` probe of `CSVProcessor.sort_data`: every present cell of
the column is a float (rows without the column are skipped by the filter in
the generator, so they make the `all` vacuously true). -/
def colIsNumeric (column : String) (rows : List VRow) : Bool :=
  rows.all (fun row =>
    match List.lookup column row with
    | some v => v.isNum
    | none => true)

/-- Whether some row misses the column (its `row.get(column)` is `None`). -/
def colHasMissing (column : String) (rows : List VRow) : Bool :=
  rows.any (fun row => (List.lookup column row).isNone)

/-- Whether some row has a numeric cell in the column. -/
def colHasNum (column : String) (rows : List VRow) : Bool :=
  rows.any (fun row =>
    match List.lookup column row with
    | some (Value.num _) => true
    | _ => false)

/-- The sort key `(value is None, float(value))` of the numeric branch,
defined on rows where the column is present (the missing case raises before
any sorting, see `sort_data`). -/
def numKeyOf (column : String) (row : VRow) : ℚ :=
  match List.lookup column row with
  | some (Value.num q) => q
  | _ => 0

/-- The sort key `(value is None, value)` of the non-numeric branch: a
missing cell gives flag `true` (Python's `(True, None)`; all such keys are
equal, so the `None` payload is modelled by `""`), a present string cell
gives `(false, s)`. -/
def strKeyOf (column : String) (row : VRow) : Bool × String :=
  match List.lookup column row with
  | some (Value.str s) => (false, s)
  | some (Value.num _) => (false, "")
  | none => (true, "")

/-- Python `<` on the composite keys `(is-missing, value)`: tuple comparison
orders by the Bool first (`False < True`) and only compares the payloads on
equal flags. -/
def strKeyLt (a b : Bool × String) : Bool :=
  if a.1 = b.1 then decide (a.2 < b.2) else (!a.1 && b.1)

/-- `CSVProcessor.sort_data` on the effective row list.  `order_by.split('=')`
must unpack into exactly two names; an unknown direction raises `ValueError`.
The two `.typeError` branches model CPython exceptions that are certain to
occur there: a numeric column with a missing cell computes `float(None)`
while building the keys, and a column mixing present floats and strs forces
the sort to order a float key against a str key, which raises on that
comparison (any comparison sort must perform at least one such comparison to
order the two within the equal-flag group). -/
def sort_data (rows : List VRow) (order_by : String) :
    Except PyError (List VRow) :=
  match splitOnChar '=' order_by with
  | [c, d] =>
    let column := pyStrip c
    let direction := pyLower (pyStrip d)
    if direction ≠ "asc" ∧ direction ≠ "desc" then
      .error (.valueError "sort direction must be asc or desc")
    else
      if colIsNumeric column rows then
        if colHasMissing column rows then
          .error (.typeError "float of None")
        else
          .ok (pySorted ratLtB (direction == "desc")
            (rows.map (fun r => (r, numKeyOf column r))))
      else
        if colHasNum column rows then
          .error (.typeError "float and str are not orderable")
        else
          .ok (pySorted strKeyLt (direction == "desc")
            (rows.map (fun r => (r, strKeyOf column r))))
  | _ => .error (.valueError "unpacking sort spec failed")

end CSVProcessor

/-! ## Claim theorems -/

/-- Claim C1, counterexample: the claim says a `>` filter never raises and merely
excludes rows whose cell does not coerce to a number, but `main.py`
`filter_rows` on the dataset `[{price: "abc"}]` with condition `"price>5"`
raises a `TypeError`: the numeric comprehension aborts with `ValueError` and
the `except` branch compares the `str` cell with the rebound `float` literal. -/
theorem c1_counterexample :
    Main.filter_rows [[("price", "abc")]] (some "price>5") =
      .error (.typeError "str and float are not orderable") := by
  decide

/-- Claim C2, counterexample: the claim says the aggregator skips non-numeric cells
without error, but `main.py` `aggregate` on `[{price: "abc"}]` with
`"price=avg"` raises `ValueError` instead of skipping the cell. -/
theorem c2_counterexample :
    Main.aggregate [[("price", "abc")]] "price=avg" =
      .error (.valueError "column must be numeric for aggregation") := by
  decide

/-- Claim C3, counterexample: on an empty collected set, `main.py` does not follow
one consistent policy: `min` raises Python's unrelated empty-sequence
`ValueError` while `avg` reports the null marker `None`. -/
theorem c3_counterexample :
    Main.aggregate ([] : List Main.PRow) "price=min" =
      .error (.valueError "min arg is an empty sequence") ∧
    Main.aggregate ([] : List Main.PRow) "price=avg" = .ok ("avg", none) := by
  decide

/-- Claim C4, counterexample: the claim says the parser fails when the split does
not yield two non-empty parts, but `main.py` `parse_condition` accepts
`"price>"` and returns an empty literal instead of failing. -/
theorem c4_counterexample :
    Main.parse_condition "price>" = .ok ("price", '>', "") := by
  decide

/-- Claim C5, counterexample: the claim says an unrecognized direction fails with
`InvalidDirection`, but `main.py` `parse_order` accepts `"price=bogus"` and
silently treats it as descending (the Bool is `direction == "asc"`). -/
theorem c5_counterexample :
    Main.parse_order "price=bogus" = .ok ("price", false) := by
  decide

/-- Claim C6, counterexample: the claim says rows missing the sort column are
ordered last in both directions, but in the `CSVProcessor` variant
`reverse=True` flips the is-missing component of the composite key too, so
under `desc` the row missing column `a` comes first. -/
theorem c6_counterexample :
    CSVProcessor.sort_data
        [[("a", Value.str "x")], [("b", Value.str "y")]] "a=desc" =
      .ok [[("b", Value.str "y")], [("a", Value.str "x")]] ∧
    List.lookup "a" [("b", Value.str "y")] = (none : Option Value) ∧
    List.lookup "a" [("a", Value.str "x")] = some (Value.str "x") := by
  decide

/-- Claim C10: in `main.py`, whether a row passes a numeric-literal filter is not a
function of the row and the condition alone: the row `{price: "500"}` passes
`"price=500"` in the singleton dataset, but is excluded when the dataset also
contains `{price: "abc"}`, because that one non-numeric cell aborts the
numeric comprehension and the fallback compares every raw cell against the
float literal. -/
theorem c10_filter_not_row_local :
    ([("price", "500")] : Main.PRow) ∈ [[("price", "500")]] ∧
    ([("price", "500")] : Main.PRow) ∈ [[("price", "500")], [("price", "abc")]] ∧
    Main.filter_rows [[("price", "500")]] (some "price=500") =
      .ok [[("price", "500")]] ∧
    Main.filter_rows [[("price", "500")], [("price", "abc")]] (some "price=500") =
      .ok [] := by
  decide

/-- Claim C4 (amended): `main.py` `parse_condition` succeeds exactly when one of
the three operator characters occurs in the expression; the arity/non-empty
check claimed by the spec does not exist (empty column or literal parts are
accepted, see the counterexample). -/
theorem c4_parse_condition_ok_iff (cond : String) :
    (∃ t, Main.parse_condition cond = .ok t) ↔
      (containsChar '>' cond = true ∨ containsChar '<' cond = true ∨
        containsChar '=' cond = true) := by
  unfold Main.parse_condition
  split_ifs with h1 h2 h3 <;> simp_all

/-- Claim C5 (amended): the `CSVProcessor` variant does validate the direction:
whenever the token after `=` is not a case-insensitive `asc`/`desc`,
`sort_data` fails with the invalid-direction `ValueError` (while `main.py`
silently sorts descending, see the counterexample). -/
theorem c5_csv_sort_invalid_direction (rows : List CSVProcessor.VRow)
    (order_by c d : String)
    (hsplit : splitOnChar '=' order_by = [c, d])
    (ha : pyLower (pyStrip d) ≠ "asc") (hd : pyLower (pyStrip d) ≠ "desc") :
    CSVProcessor.sort_data rows order_by =
      .error (.valueError "sort direction must be asc or desc") := by
  unfold CSVProcessor.sort_data
  rw [hsplit]
  simp [ha, hd]

/-- Witness for C5: a concrete invalid direction. -/
theorem c5_witness :
    CSVProcessor.sort_data [] "price=bogus" =
      .error (.valueError "sort direction must be asc or desc") :=
  c5_csv_sort_invalid_direction [] "price=bogus" "price" "bogus"
    (by decide) (by decide) (by decide)

/-- Claim C9: in the `CSVProcessor` variant, when the collected numeric set of the
column is empty, `aggregate` returns `{operation: 0.0}` before the operation
name is validated, so even a name outside avg/min/max succeeds with `0.0`. -/
theorem c9_csv_aggregate_empty_unvalidated (rows : List CSVProcessor.VRow)
    (aggregation c o : String)
    (hsplit : splitOnChar '=' aggregation = [c, o])
    (hbad : pyLower (pyStrip o) ∉ (["avg", "min", "max"] : List String))
    (hempty : CSVProcessor.collectNumeric rows (pyStrip c) = []) :
    CSVProcessor.aggregate rows aggregation = .ok (pyLower (pyStrip o), 0) := by
  unfold CSVProcessor.aggregate
  rw [hsplit]
  simp only [hempty]

/-- Witness for C9: the column holds no numeric value and the function name
`bogus` is not recognized, yet the aggregation succeeds with `0.0`. -/
theorem c9_witness :
    CSVProcessor.aggregate [[("price", Value.str "na")]] "price=bogus" =
      .ok ("bogus", 0) :=
  c9_csv_aggregate_empty_unvalidated [[("price", Value.str "na")]]
    "price=bogus" "price" "bogus" (by decide) (by decide) (by decide)

/-- Claim C3 (amended): the `CSVProcessor` variant follows one consistent policy on
an empty collected set — all three functions report `0.0` and nothing ever
raises an empty-sequence or division error — whereas in `main.py` `avg`
reports a null marker while `min`/`max` crash with Python's empty-sequence
`ValueError` (see the counterexample). -/
theorem c3_csv_aggregate_empty_consistent (rows : List CSVProcessor.VRow)
    (aggregation c o : String)
    (hsplit : splitOnChar '=' aggregation = [c, o])
    (hfunc : pyLower (pyStrip o) = "avg" ∨ pyLower (pyStrip o) = "min" ∨
      pyLower (pyStrip o) = "max")
    (hempty : CSVProcessor.collectNumeric rows (pyStrip c) = []) :
    CSVProcessor.aggregate rows aggregation = .ok (pyLower (pyStrip o), 0) := by
  unfold CSVProcessor.aggregate
  rw [hsplit]
  simp only [hempty]

/-- Witness for C3: `avg` over a column with no numeric values yields `0.0`
in the `CSVProcessor` variant. -/
theorem c3_witness :
    CSVProcessor.aggregate [[("price", Value.str "na")]] "price=avg" =
      .ok ("avg", 0) :=
  c3_csv_aggregate_empty_consistent [[("price", Value.str "na")]]
    "price=avg" "price" "avg" (by decide) (Or.inl (by decide)) (by decide)

/-- A value is collected from a column exactly when some row has it as a
present numeric cell of that column. -/
theorem mem_collectNumeric {rows : List CSVProcessor.VRow} {column : String}
    {q : ℚ} :
    q ∈ CSVProcessor.collectNumeric rows column ↔
      ∃ row ∈ rows, List.lookup column row = some (Value.num q) := by
  simp only [CSVProcessor.collectNumeric, List.mem_filterMap]
  constructor
  · rintro ⟨row, hrow, hf⟩
    refine ⟨row, hrow, ?_⟩
    rcases h : List.lookup column row with _ | v
    · rw [h] at hf; simp at hf
    · rcases v with x | s
      · rw [h] at hf
        simp only [Option.some.injEq] at hf
        rw [hf]
      · rw [h] at hf; simp at hf
  · rintro ⟨row, hrow, h⟩
    exact ⟨row, hrow, by rw [h]⟩

/-- Claim C2 (amended): in the `CSVProcessor` variant the aggregator collects
exactly the cells of the column that are present and numeric — skipping
missing and non-numeric cells without any error — and applies the named
function to that collected list; in `main.py` a non-numeric cell instead
raises a `ValueError` (see the counterexample). -/
theorem c2_csv_aggregate_collects (rows : List CSVProcessor.VRow)
    (aggregation c o : String)
    (hsplit : splitOnChar '=' aggregation = [c, o])
    (x : ℚ) (xs : List ℚ)
    (hvals : CSVProcessor.collectNumeric rows (pyStrip c) = x :: xs)
    (hfunc : pyLower (pyStrip o) = "avg" ∨ pyLower (pyStrip o) = "min" ∨
      pyLower (pyStrip o) = "max") :
    CSVProcessor.aggregate rows aggregation =
      .ok (pyLower (pyStrip o),
        if pyLower (pyStrip o) = "avg" then
          (x :: xs).sum / ((x :: xs).length : ℚ)
        else if pyLower (pyStrip o) = "min" then xs.foldl min x
        else xs.foldl max x) ∧
    ∀ q : ℚ, q ∈ CSVProcessor.collectNumeric rows (pyStrip c) ↔
      ∃ row ∈ rows, List.lookup (pyStrip c) row = some (Value.num q) := by
  constructor
  · unfold CSVProcessor.aggregate
    rw [hsplit]
    simp only [hvals]
    rcases hfunc with h | h | h <;> rw [h] <;> simp
  · intro q
    exact mem_collectNumeric

/-- Witness for C2: a dataset with one numeric cell, one text cell and one
row missing the column; `min` collects exactly the numeric cell. -/
theorem c2_witness :
    CSVProcessor.aggregate
        [[("price", Value.num 3)], [("price", Value.str "na")],
         [("other", Value.num 7)]] "price=min" = .ok ("min", 3) ∧
    (3 : ℚ) ∈ CSVProcessor.collectNumeric
        [[("price", Value.num 3)], [("price", Value.str "na")],
         [("other", Value.num 7)]] "price" := by
  have h := c2_csv_aggregate_collects
    [[("price", Value.num 3)], [("price", Value.str "na")],
     [("other", Value.num 7)]] "price=min" "price" "min"
    (by decide) 3 [] (by decide) (Or.inr (Or.inl (by decide)))
  refine ⟨h.1.trans (by decide), ?_⟩
  have h2 := (h.2 3).mpr ⟨[("price", Value.num 3)], by simp, by decide⟩
  simpa using h2

/-- `foldl min` lower-bounds every member of the list it folds over. -/
theorem foldl_min_le : ∀ (xs : List ℚ) (x : ℚ), ∀ y ∈ x :: xs, xs.foldl min x ≤ y
  | [], x => by
    intro y hy
    rcases List.mem_singleton.mp hy with rfl
    exact le_refl y
  | z :: zs, x => by
    intro y hy
    have ih := foldl_min_le zs (min x z)
    rcases List.mem_cons.mp hy with rfl | hy'
    · exact le_trans (ih (min y z) (List.mem_cons_self _ _)) (min_le_left _ _)
    · rcases List.mem_cons.mp hy' with rfl | hy''
      · exact le_trans (ih (min x y) (List.mem_cons_self _ _)) (min_le_right _ _)
      · exact ih y (List.mem_cons_of_mem _ hy'')

/-- `foldl max` upper-bounds every member of the list it folds over. -/
theorem le_foldl_max : ∀ (xs : List ℚ) (x : ℚ), ∀ y ∈ x :: xs, y ≤ xs.foldl max x
  | [], x => by
    intro y hy
    rcases List.mem_singleton.mp hy with rfl
    exact le_refl y
  | z :: zs, x => by
    intro y hy
    have ih := le_foldl_max zs (max x z)
    rcases List.mem_cons.mp hy with rfl | hy'
    · exact le_trans (le_max_left _ _) (ih (max y z) (List.mem_cons_self _ _))
    · rcases List.mem_cons.mp hy' with rfl | hy''
      · exact le_trans (le_max_right _ _) (ih (max x y) (List.mem_cons_self _ _))
      · exact ih y (List.mem_cons_of_mem _ hy'')

/-- Claim C7: whenever the collected numeric set of a column is non-empty, the
three aggregation functions of the `AGGREGATIONS` table all succeed and
satisfy `minimum ≤ average ≤ maximum`. -/
theorem c7_min_avg_max (rows : List CSVProcessor.VRow) (column : String)
    (x : ℚ) (xs : List ℚ)
    (hvals : CSVProcessor.collectNumeric rows column = x :: xs) :
    Main.AGGREGATIONS "min" (CSVProcessor.collectNumeric rows column) =
      .ok (some (xs.foldl min x)) ∧
    Main.AGGREGATIONS "avg" (CSVProcessor.collectNumeric rows column) =
      .ok (some ((x :: xs).sum / ((x :: xs).length : ℚ))) ∧
    Main.AGGREGATIONS "max" (CSVProcessor.collectNumeric rows column) =
      .ok (some (xs.foldl max x)) ∧
    xs.foldl min x ≤ (x :: xs).sum / ((x :: xs).length : ℚ) ∧
    (x :: xs).sum / ((x :: xs).length : ℚ) ≤ xs.foldl max x := by
  rw [hvals]
  have hlen : (0 : ℚ) < ((x :: xs).length : ℚ) := by
    exact_mod_cast Nat.succ_pos xs.length
  refine ⟨by simp [Main.AGGREGATIONS], by simp [Main.AGGREGATIONS],
    by simp [Main.AGGREGATIONS], ?_, ?_⟩
  · rw [le_div_iff₀ hlen]
    have h := List.card_nsmul_le_sum (x :: xs) (xs.foldl min x) (foldl_min_le xs x)
    rwa [nsmul_eq_mul, mul_comm] at h
  · rw [div_le_iff₀ hlen]
    have h := List.sum_le_card_nsmul (x :: xs) (xs.foldl max x) (le_foldl_max xs x)
    rwa [nsmul_eq_mul, mul_comm] at h

/-- Witness for C7 on the collected set `[1, 3]`. -/
theorem c7_witness :
    Main.AGGREGATIONS "min"
        (CSVProcessor.collectNumeric
          [[("p", Value.num 1)], [("p", Value.num 3)]] "p") =
      .ok (some (([3] : List ℚ).foldl min 1)) ∧
    Main.AGGREGATIONS "avg"
        (CSVProcessor.collectNumeric
          [[("p", Value.num 1)], [("p", Value.num 3)]] "p") =
      .ok (some (((1 : ℚ) :: [3]).sum / (((1 : ℚ) :: [3]).length : ℚ))) ∧
    Main.AGGREGATIONS "max"
        (CSVProcessor.collectNumeric
          [[("p", Value.num 1)], [("p", Value.num 3)]] "p") =
      .ok (some (([3] : List ℚ).foldl max 1)) ∧
    ([3] : List ℚ).foldl min 1 ≤ ((1 : ℚ) :: [3]).sum / (((1 : ℚ) :: [3]).length : ℚ) ∧
    ((1 : ℚ) :: [3]).sum / (((1 : ℚ) :: [3]).length : ℚ) ≤ ([3] : List ℚ).foldl max 1 :=
  c7_min_avg_max [[("p", Value.num 1)], [("p", Value.num 3)]] "p" 1 [3] (by decide)

/-- The filter loop of the `CSVProcessor` variant with a numeric literal and
a `>` / `<` operator never raises and keeps exactly the rows whose cell in
the column is present, numeric and satisfies the comparison. -/
theorem filterLoop_num (column : String) (op : Char) (q : ℚ)
    (hop : op = '>' ∨ op = '<') :
    ∀ rows : List CSVProcessor.VRow,
      CSVProcessor.filterLoop column op (Value.num q) rows =
        .ok (rows.filter (fun row =>
          match List.lookup column row with
          | some (Value.num v) =>
            if op = '>' then decide (v > q) else decide (v < q)
          | _ => false)) := by
  have hne : op ≠ '=' := by rcases hop with rfl | rfl <;> decide
  intro rows
  induction rows with
  | nil => rfl
  | cons row rest ih =>
    rw [CSVProcessor.filterLoop]
    rcases h : List.lookup column row with _ | v
    · simp [ih, List.filter_cons, h]
    · rcases v with w | s
      · simp [ih, List.filter_cons, hne, h]
      · simp [ih, List.filter_cons, hne, h]

/-- Claim C1 (amended): in the `CSVProcessor` variant, a `>` / `<` filter whose
literal coerced to a number never raises: every row whose cell in the named
column is missing or is text is silently excluded, and the surviving rows
are exactly those with a satisfying numeric cell.  (`main.py` instead raises
`TypeError` on such a dataset, and a non-coercing literal makes both
variants behave differently again — see the counterexample.) -/
theorem c1_csv_filter_numeric_literal (rows : List CSVProcessor.VRow)
    (condition column : String) (op : Char) (q : ℚ)
    (hparse : CSVProcessor.parse_condition condition =
      .ok (column, op, Value.num q))
    (hop : op = '>' ∨ op = '<') :
    CSVProcessor.filter_data rows condition =
      .ok (rows.filter (fun row =>
        match List.lookup column row with
        | some (Value.num v) =>
          if op = '>' then decide (v > q) else decide (v < q)
        | _ => false)) := by
  unfold CSVProcessor.filter_data
  rw [hparse]
  exact filterLoop_num column op q hop rows

/-- Witness for C1: `price>5` keeps the numeric row `10`, silently drops a
text cell and a row without the column, and raises nothing. -/
theorem c1_witness :
    CSVProcessor.filter_data
        [[("price", Value.num 10)], [("price", Value.str "na")], []]
        "price>5" = .ok [[("price", Value.num 10)]] :=
  (c1_csv_filter_numeric_literal
    [[("price", Value.num 10)], [("price", Value.str "na")], []]
    "price>5" "price" '>' 5 (by decide) (Or.inl rfl)).trans (by decide)

/-- `pySorted` permutes the elements of its pair list. -/
theorem pySorted_perm {α κ : Type} (keyLt : κ → κ → Bool) (reverse : Bool)
    (pairs : List (α × κ)) :
    (pySorted keyLt reverse pairs).Perm (pairs.map Prod.fst) :=
  (List.perm_insertionSort _ pairs).map Prod.fst

/-- The numeric sort keys of `main.py`, when they all convert, are one per
row. -/
theorem numKeys_length (col : String) (data : List Main.PRow) :
    ∀ ks : List ℚ, Main.numKeys data col = .ok (some ks) →
      ks.length = data.length := by
  induction data with
  | nil =>
    intro ks h
    rw [Main.numKeys] at h
    obtain rfl := Option.some.inj (Except.ok.inj h)
    rfl
  | cons row rest ih =>
    intro ks h
    rw [Main.numKeys] at h
    cases h1 : List.lookup col row with
    | none => simp [h1] at h
    | some s =>
      simp only [h1] at h
      cases h2 : pyFloat? s with
      | none => simp [h2] at h
      | some x =>
        simp only [h2] at h
        cases h3 : Main.numKeys rest col with
        | error e => simp [h3] at h
        | ok o =>
          cases o with
          | none => simp [h3] at h
          | some ks2 =>
            simp only [h3] at h
            have h4 : x :: ks2 = ks := by simpa using h
            rw [← h4]
            simp [ih ks2 h3]

/-- The string sort keys of `main.py`'s fallback branch are one per row. -/
theorem strKeys_length (col : String) (data : List Main.PRow) :
    ∀ ks : List String, Main.strKeys data col = .ok ks →
      ks.length = data.length := by
  induction data with
  | nil =>
    intro ks h
    rw [Main.strKeys] at h
    obtain rfl := Except.ok.inj h
    rfl
  | cons row rest ih =>
    intro ks h
    rw [Main.strKeys] at h
    cases h1 : List.lookup col row with
    | none => simp [h1] at h
    | some s =>
      simp only [h1] at h
      cases h2 : Main.strKeys rest col with
      | error e => simp [h2] at h
      | ok ks2 =>
        simp only [h2] at h
        have h3 : s :: ks2 = ks := by simpa using h
        rw [← h3]
        simp [ih ks2 h2]

/-- Claim C8: whenever `main.py` `sort_data` returns a row list, that list is a
permutation of the input dataset — no row is added, dropped or modified
(rows are returned whole; only their order changes). -/
theorem c8_sort_data_perm (data : List Main.PRow) (order : Option String)
    (l : List Main.PRow) (h : Main.sort_data data order = .ok l) :
    l.Perm data := by
  rcases order with _ | s
  · simp only [Main.sort_data] at h
    obtain rfl := Except.ok.inj h
    exact List.Perm.refl _
  · simp only [Main.sort_data] at h
    by_cases hs : s = ""
    · rw [if_pos hs] at h
      obtain rfl := Except.ok.inj h
      exact List.Perm.refl _
    · rw [if_neg hs] at h
      cases hp : Main.parse_order s with
      | error e => simp [hp] at h
      | ok co =>
        obtain ⟨col, asc⟩ := co
        simp only [hp] at h
        cases hk : Main.numKeys data col with
        | error e => simp [hk] at h
        | ok o =>
          cases o with
          | some ks =>
            simp only [hk] at h
            obtain rfl := Except.ok.inj h
            have hlen := numKeys_length col data ks hk
            have hperm := pySorted_perm ratLtB (!asc) (data.zip ks)
            rwa [List.map_fst_zip data ks (le_of_eq hlen.symm)] at hperm
          | none =>
            simp only [hk] at h
            cases hk2 : Main.strKeys data col with
            | error e => simp [hk2] at h
            | ok ks =>
              simp only [hk2] at h
              obtain rfl := Except.ok.inj h
              have hlen := strKeys_length col data ks hk2
              have hperm := pySorted_perm strLtB (!asc) (data.zip ks)
              rwa [List.map_fst_zip data ks (le_of_eq hlen.symm)] at hperm

/-- Witness for C8: an ascending numeric sort of two rows returns the same
two rows, reordered. -/
theorem c8_witness :
    ([[("price", "199")], [("price", "999")]] : List Main.PRow).Perm
      [[("price", "999")], [("price", "199")]] :=
  c8_sort_data_perm [[("price", "999")], [("price", "199")]]
    (some "price=asc") [[("price", "199")], [("price", "999")]] (by decide)

/-- `strKeyLt` is asymmetric: two composite keys are never both strictly
below each other. -/
theorem strKeyLt_asymm (a b : Bool × String)
    (h : CSVProcessor.strKeyLt a b = true) :
    CSVProcessor.strKeyLt b a = false := by
  rcases a with ⟨a1, a2⟩
  rcases b with ⟨b1, b2⟩
  cases a1 <;> cases b1 <;> simp_all [CSVProcessor.strKeyLt] <;> exact le_of_lt h

/-- The weak order `¬ strKeyLt` on composite keys is transitive. -/
theorem strKeyLt_le_trans (a b c : Bool × String)
    (h1 : CSVProcessor.strKeyLt b a = false)
    (h2 : CSVProcessor.strKeyLt c b = false) :
    CSVProcessor.strKeyLt c a = false := by
  rcases a with ⟨a1, a2⟩
  rcases b with ⟨b1, b2⟩
  rcases c with ⟨c1, c2⟩
  cases a1 <;> cases b1 <;> cases c1 <;> simp_all [CSVProcessor.strKeyLt] <;>
    exact le_trans h1 h2

/-- The ascending `pyLe` comparator over composite text keys is total. -/
theorem pyLe_asc_total {α : Type} (p q : α × (Bool × String)) :
    pyLe CSVProcessor.strKeyLt false p q ∨ pyLe CSVProcessor.strKeyLt false q p := by
  unfold pyLe
  cases hlt : CSVProcessor.strKeyLt q.2 p.2
  · left; simp [hlt]
  · right; simp [strKeyLt_asymm _ _ hlt]

/-- The ascending `pyLe` comparator over composite text keys is transitive. -/
theorem pyLe_asc_trans {α : Type} (p q t : α × (Bool × String))
    (h1 : pyLe CSVProcessor.strKeyLt false p q)
    (h2 : pyLe CSVProcessor.strKeyLt false q t) :
    pyLe CSVProcessor.strKeyLt false p t := by
  simp only [pyLe, Bool.false_eq_true, if_false, Bool.not_eq_true'] at h1 h2 ⊢
  exact strKeyLt_le_trans p.2 q.2 t.2 h1 h2

/-- In an ascending `pySorted` by the composite text key of a column, the
rows whose cell in that column is missing occupy a suffix of the output. -/
theorem pySorted_missing_suffix (column : String)
    (rows l : List CSVProcessor.VRow)
    (hl : pySorted CSVProcessor.strKeyLt false
        (rows.map (fun row => (row, CSVProcessor.strKeyOf column row))) = l)
    (i j : ℕ) (hi : i < l.length) (hj : j < l.length) (hij : i ≤ j)
    (hmiss : List.lookup column (l.get ⟨i, hi⟩) = none) :
    List.lookup column (l.get ⟨j, hj⟩) = none := by
  rcases Nat.eq_or_lt_of_le hij with rfl | hlt
  · exact hmiss
  subst hl
  by_contra hjn
  have hsorted : List.Sorted (pyLe CSVProcessor.strKeyLt false)
      (List.insertionSort (pyLe CSVProcessor.strKeyLt false)
        (rows.map (fun row => (row, CSVProcessor.strKeyOf column row)))) := by
    haveI : IsTotal (CSVProcessor.VRow × (Bool × String))
        (pyLe CSVProcessor.strKeyLt false) := ⟨pyLe_asc_total⟩
    haveI : IsTrans (CSVProcessor.VRow × (Bool × String))
        (pyLe CSVProcessor.strKeyLt false) := ⟨pyLe_asc_trans⟩
    exact List.sorted_insertionSort _ _
  have hi' : i < (List.insertionSort (pyLe CSVProcessor.strKeyLt false)
      (rows.map (fun row => (row, CSVProcessor.strKeyOf column row)))).length := by
    simpa [pySorted] using hi
  have hj' : j < (List.insertionSort (pyLe CSVProcessor.strKeyLt false)
      (rows.map (fun row => (row, CSVProcessor.strKeyOf column row)))).length := by
    simpa [pySorted] using hj
  have hr := List.pairwise_iff_getElem.mp hsorted i j hi' hj' hlt
  rw [List.get_eq_getElem] at hmiss hjn
  simp only [pySorted, List.getElem_map] at hmiss hjn
  have hmem_i := ((List.perm_insertionSort
    (pyLe CSVProcessor.strKeyLt false)
    (rows.map (fun row => (row, CSVProcessor.strKeyOf column row)))).mem_iff).mp
    (List.getElem_mem hi')
  have hmem_j := ((List.perm_insertionSort
    (pyLe CSVProcessor.strKeyLt false)
    (rows.map (fun row => (row, CSVProcessor.strKeyOf column row)))).mem_iff).mp
    (List.getElem_mem hj')
  obtain ⟨rowi, hri, hei⟩ := List.mem_map.mp hmem_i
  obtain ⟨rowj, hrj, hej⟩ := List.mem_map.mp hmem_j
  rw [← hei] at hmiss
  rw [← hej] at hjn
  rw [← hei, ← hej] at hr
  simp only at hmiss hjn
  have hki : CSVProcessor.strKeyOf column rowi = (true, "") := by
    simp [CSVProcessor.strKeyOf, hmiss]
  rcases hv : List.lookup column rowj with _ | v
  · exact hjn hv
  · have hfalse : CSVProcessor.strKeyLt
        (CSVProcessor.strKeyOf column rowj) (true, "") = true := by
      rcases v with x | s2 <;> simp [CSVProcessor.strKeyOf, hv, CSVProcessor.strKeyLt]
    simp [pyLe, hki, hfalse] at hr

/-- Claim C6 (amended): in the `CSVProcessor` variant, with ascending direction and
a column whose present cells are all text, every row missing the column is
placed after every row that has a value (the missing rows form a suffix).
Under descending direction the missing rows instead come first, and missing
cells in a numeric column crash with `TypeError` — see the counterexample. -/
theorem c6_csv_sort_text_missing (rows : List CSVProcessor.VRow)
    (order_by c d : String)
    (hsplit : splitOnChar '=' order_by = [c, d])
    (hdir : pyLower (pyStrip d) = "asc")
    (hnum : CSVProcessor.colIsNumeric (pyStrip c) rows = false)
    (hmix : CSVProcessor.colHasNum (pyStrip c) rows = false) :
    ∃ l, CSVProcessor.sort_data rows order_by = .ok l ∧
      ∀ (i j : ℕ) (hi : i < l.length) (hj : j < l.length), i ≤ j →
        List.lookup (pyStrip c) (l.get ⟨i, hi⟩) = none →
        List.lookup (pyStrip c) (l.get ⟨j, hj⟩) = none := by
  refine ⟨pySorted CSVProcessor.strKeyLt false
      (rows.map (fun row => (row, CSVProcessor.strKeyOf (pyStrip c) row))), ?_, ?_⟩
  · unfold CSVProcessor.sort_data
    rw [hsplit]
    simp [hdir, hnum, hmix]
  · intro i j hi hj hij hmiss
    exact pySorted_missing_suffix (pyStrip c) rows _ rfl i j hi hj hij hmiss

/-- Witness for C6: ascending text sort moves the row missing column `a`
behind the row that has one. -/
theorem c6_witness :
    CSVProcessor.colIsNumeric "a"
      [[("b", Value.str "y")], [("a", Value.str "x")]] = false ∧
    ∃ l, CSVProcessor.sort_data
        [[("b", Value.str "y")], [("a", Value.str "x")]] "a=asc" = .ok l ∧
      ∀ (i j : ℕ) (hi : i < l.length) (hj : j < l.length), i ≤ j →
        List.lookup "a" (l.get ⟨i, hi⟩) = none →
        List.lookup "a" (l.get ⟨j, hj⟩) = none := by
  refine ⟨by decide, ?_⟩
  have h := c6_csv_sort_text_missing
    [[("b", Value.str "y")], [("a", Value.str "x")]] "a=asc" "a" "asc"
    (by decide) (by decide) (by decide) (by decide)
  have e : pyStrip "a" = "a" := by decide
  rw [e] at h
  exact h

end CSVTask
